import Mathlib

/-!
Verification development for the boltz-client daemon.

The Go sources are embedded shallowly: byte strings become `List Nat`,
fallible external calls (LND, the Boltz exchange HTTP and websocket APIs,
the wallet, the database) become oracle fields of an environment record,
and each embedded function returns a trace recording its result together
with every database write and outbound message it performed.  Machine
integers in the sources never overflow on the paths modelled here, so they
are embedded as `Nat` or `Int` directly.
-/

/-- Bytes (Go byte slices) are modelled as lists of naturals; `[]` is the nil slice. -/
abbrev Bytes := List Nat

/-- Does the first list start with the second one?  Mirrors the substring test
used by Go strings.Contains. -/
def listStartsWith : List Char → List Char → Bool
  | _, [] => true
  | [], _ :: _ => false
  | a :: s, b :: t => a == b && listStartsWith s t

/-- Does the first list contain the second as a contiguous sublist? -/
def listContainsSub : List Char → List Char → Bool
  | [], sub => sub.isEmpty
  | c :: rest, sub => listStartsWith (c :: rest) sub || listContainsSub rest sub

/-- Embedding of Go strings.Contains. -/
def strContains (s sub : String) : Bool := listContainsSub s.data sub.data

/-- Is an `Except` value an error? -/
def isErr {ε α : Type} : Except ε α → Bool
  | .error _ => true
  | .ok _ => false

namespace Router

/-- Result of zpay32.Decode: only the payment hash matters to the embedded code. -/
structure DecodedInvoice where
  paymentHash : Bytes
  deriving DecidableEq

/-- Result of lightning.CreateInvoice. -/
structure NewInvoice where
  paymentHash : Bytes
  paymentRequest : String
  deriving DecidableEq

/-- The CreateSwapRequest message of the gRPC interface (rpcserver/router.go).
Getter methods returning the zero value for unset fields are folded into the
fields themselves, so an absent invoice is the empty string. -/
structure CreateSwapRpcRequest where
  invoice : String
  amount : Int
  sendFromInternal : Bool
  refundAddress : String
  walletName : String
  fromLiquid : Bool
  deriving DecidableEq

/-- The request body sent to the exchange by boltz.CreateSwap.  Key material is
abstracted to a natural number. -/
structure BoltzCreateSwapRequest where
  refundPublicKey : Nat
  invoice : String
  preimageHash : Bytes
  pairHash : String
  deriving DecidableEq

/-- The response of the exchange to boltz.CreateSwap. -/
structure BoltzCreateSwapResponse where
  id : String
  address : String
  expectedAmount : Nat
  timeoutBlockHeight : Nat
  deriving DecidableEq

/-- gRPC swap states (boltzrpc.SwapState). -/
inductive SwapState where
  | pending
  | successful
  | error
  | serverError
  | refunded
  deriving DecidableEq

/-- The database row written by database.CreateSwap, restricted to the fields
the claims mention (rpcserver/router.go lines 358 to 379). -/
structure DBSwap where
  id : String
  state : SwapState
  preimage : Bytes
  invoice : String
  address : String
  refundAddress : String
  expectedAmount : Nat
  timeoutBlockHeight : Nat
  isAuto : Bool
  wallet : String
  deriving DecidableEq

/-- Environment of createSwap: one oracle per external call, in source order.
A `none` result means the call returned an error. -/
structure SwapEnv where
  /-- newKeys: the generated private and public key (abstracted to naturals). -/
  newKeys : Option (Nat × Nat)
  /-- GetSubmarinePair: the pair hash, or an error. -/
  submarinePairHash : Option String
  /-- zpay32.Decode applied to a user supplied invoice string. -/
  decodeInvoice : String → Option DecodedInvoice
  /-- Is server.lightning non nil? -/
  hasLightning : Bool
  /-- lightning.CreateInvoice. -/
  createInvoice : Option NewInvoice
  /-- rand.Read into the 32 byte preimage buffer; `none` is a rand failure. -/
  randBytes : Option (Fin 32 → Nat)
  /-- onchain.GetWallet: the wallet name, or an error. -/
  getWallet : Option String
  /-- boltz.CreateSwap, a function of the request that is sent. -/
  boltzCreateSwap : BoltzCreateSwapRequest → Option BoltzCreateSwapResponse
  /-- btcec.ParsePubKey on the claim public key of the response. -/
  parsePubKey : Bool
  /-- swap.InitTree. -/
  initTree : Bool
  /-- swap.SwapTree.Check(false, timeoutBlockHeight, preimageHash). -/
  treeCheck : Bool
  /-- swap.SwapTree.CheckAddress(response.Address, network, blindingPubKey). -/
  addressCheck : Bool
  /-- database.CreateSwap succeeded. -/
  dbCreateOk : Bool
  /-- onchain.GetBlockHeight. -/
  getBlockHeight : Option Nat
  /-- onchain.EstimateFee. -/
  estimateFee : Option Nat
  /-- wallet.SendToAddress: the transaction id, or an error. -/
  sendToAddress : Option String
  /-- nursery.RegisterSwap. -/
  registerOk : Bool

/-- Observable outcome of one createSwap call: the returned value, the list of
rows written by database.CreateSwap, the request sent to the exchange, and the
value of the local preimageHash variable once it has been assigned. -/
structure CreateSwapTrace where
  result : Except String Unit
  persisted : List DBSwap
  sent : Option BoltzCreateSwapRequest
  preimageHashUsed : Option Bytes

/-- Embedding of newPreimage (rpcserver/router.go lines 1173 to 1184): a fresh
32 byte buffer is filled by rand.Read and hashed with sha256.  The hash
function is a parameter of the embedding. -/
def newPreimage (sha256 : Bytes → Bytes) (randBytes : Option (Fin 32 → Nat)) :
    Option (Bytes × Bytes) :=
  match randBytes with
  | none => none
  | some f =>
    let preimage : Bytes := List.ofFn f
    some (preimage, sha256 preimage)

/-- Embedding of the preimage selection block of createSwap (rpcserver/router.go
lines 313 to 343).  Returns the local preimage and preimageHash variables, the
invoice field of the outgoing request, and its preimage hash field. -/
def selectPreimage (sha256 : Bytes → Bytes) (env : SwapEnv) (req : CreateSwapRpcRequest) :
    Except String (Bytes × Bytes × String × Bytes) :=
  if req.invoice ≠ "" then
    match env.decodeInvoice req.invoice with
    | none => .error "invalid invoice"
    | some inv => .ok ([], inv.paymentHash, req.invoice, [])
  else if env.hasLightning = false then
    .error "invoice is required in standalone mode"
  else if req.amount ≠ 0 then
    match env.createInvoice with
    | none => .error "create invoice failed"
    | some inv => .ok ([], inv.paymentHash, inv.paymentRequest, [])
  else if req.sendFromInternal then
    .error "cannot auto send if amount is 0"
  else
    match newPreimage sha256 env.randBytes with
    | none => .error "rand failed"
    | some (preimage, preimageHash) => .ok (preimage, preimageHash, "", preimageHash)

/-- The verification stage of createSwap (rpcserver/router.go lines 290 to
414): everything up to, but not including, the database write.  An error
carries the request already sent to the exchange and the preimage hash
variable, so the surrounding trace stays faithful; success carries the row
that is about to be persisted. -/
def swapChecked (sha256 : Bytes → Bytes) (env : SwapEnv) (isAuto : Bool)
    (req : CreateSwapRpcRequest) :
    Except (String × Option BoltzCreateSwapRequest × Option Bytes)
      (DBSwap × BoltzCreateSwapRequest × Bytes) :=
  match env.newKeys with
  | none => .error ("newKeys failed", none, none)
  | some (_priv, pub) =>
  match env.submarinePairHash with
  | none => .error ("could not find pair", none, none)
  | some pairHash =>
  match selectPreimage sha256 env req with
  | .error e => .error (e, none, none)
  | .ok (preimage, preimageHash, reqInvoice, reqPreimageHash) =>
  -- GetWallet: the error is fatal only when sending from the internal wallet
  if req.sendFromInternal && (env.getWallet).isNone then
    .error ("wallet not found", none, some preimageHash)
  else
  let sent : BoltzCreateSwapRequest :=
    ⟨pub, reqInvoice, reqPreimageHash, pairHash⟩
  match env.boltzCreateSwap sent with
  | none => .error ("boltz error", some sent, some preimageHash)
  | some resp =>
  let row : DBSwap :=
    { id := resp.id
      state := .pending
      preimage := preimage
      invoice := reqInvoice
      address := resp.address
      refundAddress := req.refundAddress
      expectedAmount := resp.expectedAmount
      timeoutBlockHeight := resp.timeoutBlockHeight
      isAuto := isAuto
      wallet := if req.sendFromInternal then (env.getWallet).getD "" else "" }
  if !env.parsePubKey then .error ("parse claim pubkey failed", some sent, some preimageHash)
  else if !env.initTree then .error ("init tree failed", some sent, some preimageHash)
  else if !env.treeCheck then .error ("tree check failed", some sent, some preimageHash)
  else if !env.addressCheck then .error ("address check failed", some sent, some preimageHash)
  else .ok (row, sent, preimageHash)

/-- Embedding of createSwap (rpcserver/router.go lines 290 to 457): the
verification stage above, then the database write of line 416 and the
remaining calls.  Every early `return nil, handleError(err)` of the source
becomes a trace whose result is an error. -/
def createSwap (sha256 : Bytes → Bytes) (env : SwapEnv) (isAuto : Bool)
    (req : CreateSwapRpcRequest) : CreateSwapTrace :=
  match swapChecked sha256 env isAuto req with
  | .error (e, sentOpt, phOpt) => ⟨.error e, [], sentOpt, phOpt⟩
  | .ok (row, sent, preimageHash) =>
  if !env.dbCreateOk then ⟨.error "database create failed", [], some sent, some preimageHash⟩
  else
  -- the row is now persisted; later failures no longer roll it back
  match env.getBlockHeight with
  | none => ⟨.error "block height failed", [row], some sent, some preimageHash⟩
  | some _height =>
  if req.sendFromInternal then
    match env.estimateFee with
    | none => ⟨.error "estimate fee failed", [row], some sent, some preimageHash⟩
    | some _fee =>
    match env.sendToAddress with
    | none => ⟨.error "send to address failed", [row], some sent, some preimageHash⟩
    | some _txId =>
    if !env.registerOk then ⟨.error "register failed", [row], some sent, some preimageHash⟩
    else ⟨.ok (), [row], some sent, some preimageHash⟩
  else
    if !env.registerOk then ⟨.error "register failed", [row], some sent, some preimageHash⟩
    else ⟨.ok (), [row], some sent, some preimageHash⟩

/-- The CreateReverseSwapRequest message of the gRPC interface.  Optional proto
fields keep their presence bit as `Option`. -/
structure CreateReverseSwapRpcRequest where
  amount : Int
  address : String
  acceptZeroConf : Bool
  externalPay : Option Bool
  returnImmediately : Option Bool
  chanIds : List String
  walletName : String
  toLiquid : Bool

/-- The request body sent to the exchange by boltz.CreateReverseSwap. -/
structure BoltzCreateReverseSwapRequest where
  invoiceAmount : Int
  preimageHash : Bytes
  claimPublicKey : Nat
  pairHash : String
  deriving DecidableEq

/-- The response of the exchange to boltz.CreateReverseSwap. -/
structure BoltzCreateReverseSwapResponse where
  id : String
  invoice : String
  lockupAddress : String
  onchainAmount : Nat
  timeoutBlockHeight : Nat
  deriving DecidableEq

/-- The database row written by database.CreateReverseSwap, restricted to the
fields the claims mention (rpcserver/router.go lines 545 to 563). -/
structure DBReverseSwap where
  id : String
  acceptZeroConf : Bool
  preimage : Bytes
  invoice : String
  claimAddress : String
  onchainAmount : Nat
  timeoutBlockHeight : Nat
  isAuto : Bool
  externalPay : Bool
  chanIds : List Nat
  deriving DecidableEq

/-- Environment of createReverseSwap: one oracle per external call, in source
order.  A `none` result means the call returned an error. -/
structure ReverseEnv where
  /-- Is server.lightning non nil? -/
  hasLightning : Bool
  /-- boltz.ValidateAddress on the user supplied claim address. -/
  validateAddress : String → Bool
  /-- onchain.GetWallet: the wallet name, or an error. -/
  getWallet : Option String
  /-- wallet.NewAddress. -/
  walletNewAddress : Option String
  /-- rand.Read into the 32 byte preimage buffer. -/
  randBytes : Option (Fin 32 → Nat)
  /-- newKeys: the generated private and public key. -/
  newKeys : Option (Nat × Nat)
  /-- GetReversePair: the pair hash, or an error. -/
  reversePairHash : Option String
  /-- boltz.CreateReverseSwap, a function of the request that is sent. -/
  boltzCreateReverse : BoltzCreateReverseSwapRequest → Option BoltzCreateReverseSwapResponse
  /-- btcec.ParsePubKey on the refund public key of the response. -/
  parseRefundPubKey : Bool
  /-- lightning.NewChanIdFromString. -/
  parseChanId : String → Option Nat
  /-- reverseSwap.InitTree. -/
  initTree : Bool
  /-- reverseSwap.SwapTree.Check(true, timeoutBlockHeight, preimageHash). -/
  treeCheck : Bool
  /-- reverseSwap.SwapTree.CheckAddress(response.LockupAddress, network, blindingPubKey). -/
  addressCheck : Bool
  /-- zpay32.Decode on the invoice returned by the exchange. -/
  decodeInvoice : String → Option DecodedInvoice
  /-- database.CreateReverseSwap succeeded. -/
  dbCreateOk : Bool
  /-- nursery.RegisterReverseSwap. -/
  registerOk : Bool
  /-- nursery.PayReverseSwap. -/
  payReverseSwap : Except String Unit
  /-- database.UpdateReverseSwapState succeeded. -/
  dbUpdateStateOk : Bool
  /-- Outcome of the SwapUpdates wait loop at the end of the function. -/
  waitOutcome : Except String Unit

/-- Observable outcome of one createReverseSwap call: the returned value, the
rows written by database.CreateReverseSwap, the state updates written by
database.UpdateReverseSwapState, and the request sent to the exchange. -/
structure CreateReverseSwapTrace where
  result : Except String Unit
  persisted : List DBReverseSwap
  stateUpdates : List (String × SwapState)
  sent : Option BoltzCreateReverseSwapRequest

/-- Embedding of the externalPay resolution of createReverseSwap
(rpcserver/router.go lines 466 to 473). -/
def resolveExternalPay (hasLightning : Bool) (reqExternalPay : Option Bool) :
    Except String Bool :=
  let externalPay := reqExternalPay.getD false
  if !hasLightning then
    if reqExternalPay.isNone then .ok true
    else if !externalPay then
      .error "can not create reverse swap without external pay in standalone mode"
    else .ok externalPay
  else .ok externalPay

/-- Embedding of the returnImmediately resolution of createReverseSwap
(rpcserver/router.go lines 475 to 483). -/
def resolveReturnImmediately (externalPay : Bool) (reqRI : Option Bool) :
    Except String Bool :=
  let ri := reqRI.getD false
  if externalPay then
    if reqRI.isSome && !ri then
      .error "can not wait for swap transaction when using external pay"
    else .ok true
  else .ok ri

/-- Embedding of the claim address resolution of createReverseSwap
(rpcserver/router.go lines 485 to 506): a user supplied address is validated,
otherwise a fresh one is drawn from the wallet. -/
def resolveClaimAddress (env : ReverseEnv) (req : CreateReverseSwapRpcRequest) :
    Except String String :=
  if req.address ≠ "" then
    if env.validateAddress req.address then .ok req.address
    else .error "invalid claim address"
  else
    match env.getWallet with
    | none => .error "wallet not found"
    | some _name =>
      match env.walletNewAddress with
      | none => .error "new address failed"
      | some a => .ok a

/-- Embedding of the channel id parsing loop of createReverseSwap
(rpcserver/router.go lines 565 to 571). -/
def parseChanIds (parse : String → Option Nat) : List String → Except String (List Nat)
  | [] => .ok []
  | c :: rest =>
    match parse c with
    | none => .error "invalid channel id"
    | some p =>
      match parseChanIds parse rest with
      | .error e => .error e
      | .ok ps => .ok (p :: ps)

/-- The verification stage of createReverseSwap (rpcserver/router.go lines
463 to 605): everything up to, but not including, the database write.  The
channel id loop is run before the row record is formed (in the source the row
is formed first and the loop appends to it); both orders persist the same row
and fail on the same inputs.  An error carries the request already sent to
the exchange; success carries the resolved flags and the row about to be
persisted. -/
def reverseChecked (sha256 : Bytes → Bytes) (env : ReverseEnv) (isAuto : Bool)
    (req : CreateReverseSwapRpcRequest) :
    Except (String × Option BoltzCreateReverseSwapRequest)
      (Bool × Bool × DBReverseSwap × BoltzCreateReverseSwapRequest) :=
  match resolveExternalPay env.hasLightning req.externalPay with
  | .error e => .error (e, none)
  | .ok externalPay =>
  match resolveReturnImmediately externalPay req.returnImmediately with
  | .error e => .error (e, none)
  | .ok returnImmediately =>
  match resolveClaimAddress env req with
  | .error e => .error (e, none)
  | .ok claimAddress =>
  match newPreimage sha256 env.randBytes with
  | none => .error ("rand failed", none)
  | some (preimage, preimageHash) =>
  match env.newKeys with
  | none => .error ("newKeys failed", none)
  | some (_priv, pub) =>
  match env.reversePairHash with
  | none => .error ("could not find pair", none)
  | some pairHash =>
  let sent : BoltzCreateReverseSwapRequest := ⟨req.amount, preimageHash, pub, pairHash⟩
  match env.boltzCreateReverse sent with
  | none => .error ("boltz error", some sent)
  | some resp =>
  if !env.parseRefundPubKey then .error ("parse refund pubkey failed", some sent)
  else
  match parseChanIds env.parseChanId req.chanIds with
  | .error e => .error (e, some sent)
  | .ok chanIds =>
  let row : DBReverseSwap :=
    { id := resp.id
      acceptZeroConf := req.acceptZeroConf
      preimage := preimage
      invoice := resp.invoice
      claimAddress := claimAddress
      onchainAmount := resp.onchainAmount
      timeoutBlockHeight := resp.timeoutBlockHeight
      isAuto := isAuto
      externalPay := externalPay
      chanIds := chanIds }
  if !env.initTree then .error ("init tree failed", some sent)
  else if !env.treeCheck then .error ("tree check failed", some sent)
  else if !env.addressCheck then .error ("address check failed", some sent)
  else
  match env.decodeInvoice row.invoice with
  | none => .error ("decode invoice failed", some sent)
  | some inv =>
  if preimageHash ≠ inv.paymentHash then
    .error ("invalid invoice preimage hash", some sent)
  else .ok (externalPay, returnImmediately, row, sent)

/-- Embedding of createReverseSwap (rpcserver/router.go lines 463 to 653):
the verification stage above, then the database write of line 607 and the
remaining calls.  The update stream loop guarded by returnImmediately and
acceptZeroConf is folded into the waitOutcome oracle. -/
def createReverseSwap (sha256 : Bytes → Bytes) (env : ReverseEnv) (isAuto : Bool)
    (req : CreateReverseSwapRpcRequest) : CreateReverseSwapTrace :=
  match reverseChecked sha256 env isAuto req with
  | .error (e, sentOpt) => ⟨.error e, [], [], sentOpt⟩
  | .ok (externalPay, returnImmediately, row, sent) =>
  if !env.dbCreateOk then ⟨.error "database create failed", [], [], some sent⟩
  else
  -- the row is now persisted; later failures no longer roll it back
  if !env.registerOk then ⟨.error "register failed", [row], [], some sent⟩
  else if externalPay then
    if !returnImmediately && req.acceptZeroConf then
      match env.waitOutcome with
      | .error e => ⟨.error e, [row], [], some sent⟩
      | .ok () => ⟨.ok (), [row], [], some sent⟩
    else ⟨.ok (), [row], [], some sent⟩
  else
    match env.payReverseSwap with
    | .error e =>
      if !env.dbUpdateStateOk then
        ⟨.error "database update failed", [row], [(row.id, SwapState.error)], some sent⟩
      else
        ⟨.error e, [row], [(row.id, SwapState.error)], some sent⟩
    | .ok () =>
      if !returnImmediately && req.acceptZeroConf then
        match env.waitOutcome with
        | .error e => ⟨.error e, [row], [], some sent⟩
        | .ok () => ⟨.ok (), [row], [], some sent⟩
      else ⟨.ok (), [row], [], some sent⟩

/-- Error returned while the daemon is locked (rpcserver/router.go line 990). -/
def errLockedMessage : String := "boltzd is locked, use \"unlock\" to enable full RPC access"

/-- Embedding of requestAllowed (rpcserver/router.go lines 992 to 997). -/
def requestAllowed (locked : Bool) (fullMethod : String) : Option String :=
  if locked && !(strContains fullMethod "Unlock") then some errLockedMessage
  else none

/-- Outcome of a server interceptor: whether the wrapped handler ran, and the
value returned to gRPC. -/
structure InterceptOutcome where
  handlerInvoked : Bool
  result : Except String String

/-- Embedding of UnaryServerInterceptor (rpcserver/router.go lines 999 to 1012). -/
def unaryInterceptor (locked : Bool) (fullMethod : String)
    (handler : Unit → Except String String) : InterceptOutcome :=
  match requestAllowed locked fullMethod with
  | some e => ⟨false, .error e⟩
  | none => ⟨true, handler ()⟩

/-- Embedding of StreamServerInterceptor (rpcserver/router.go lines 1014 to 1027). -/
def streamInterceptor (locked : Bool) (fullMethod : String)
    (handler : Unit → Except String String) : InterceptOutcome :=
  match requestAllowed locked fullMethod with
  | some e => ⟨false, .error e⟩
  | none => ⟨true, handler ()⟩

/-- A set of wallet credentials (only identity matters to the unlock path). -/
structure Credential where
  name : String
  deriving DecidableEq

/-- Environment of unlock: oracles for credential decryption, wallet login,
autoswap config loading (its failure is only logged) and nursery startup. -/
structure UnlockEnv where
  /-- decryptWalletCredentials: the decrypted list, or a wrong password error. -/
  decryptCredentials : Option (List Credential)
  /-- wallet.Login: the wallet, or an error. -/
  loginWallet : Credential → Option String
  /-- swapper.LoadConfig succeeded (a failure is only logged). -/
  loadConfigOk : Bool
  /-- nursery.Init succeeded. -/
  nurseryInitOk : Bool

/-- Embedding of the wallet login loop of unlock (rpcserver/router.go lines
950 to 957): the first failing login aborts. -/
def loginAll (login : Credential → Option String) : List Credential → Except String Unit
  | [] => .ok ()
  | c :: rest =>
    match login c with
    | none => .error "could not login to wallet"
    | some _w => loginAll login rest

/-- Embedding of unlock (rpcserver/router.go lines 941 to 976).  The input is
the current locked flag; on success the returned flag is the new value of
server.locked (cleared at line 973). -/
def unlock (env : UnlockEnv) (locked : Bool) : Except String Bool :=
  if !locked then .error "boltzd already unlocked!"
  else
    match env.decryptCredentials with
    | none => .error "wrong password"
    | some credentials =>
      match loginAll env.loginWallet credentials with
      | .error e => .error e
      | .ok () =>
        if !env.nurseryInitOk then .error "nursery init failed"
        else .ok false

end Router

namespace Nursery

/-- Exchange status events.  Modelled from the spec: boltz.ParseEvent lives in
the boltz package, which is not among the sources; the spec (section 4.C,
event inputs) fixes the closed status vocabulary. -/
inductive SwapEvent where
  | swapCreated
  | transactionMempool
  | transactionConfirmed
  | transactionClaimed
  | transactionLockupFailed
  | invoiceSet
  | invoicePaid
  | invoicePending
  | invoiceSettled
  | invoiceFailedToPay
  | swapExpired
  | swapRefunded
  | unknown (s : String)
  deriving DecidableEq

/-- Modelled from the spec: boltz.ParseEvent maps a status string from the
closed vocabulary of section 4.C to its event. -/
def ParseEvent (s : String) : SwapEvent :=
  if s = "swap.created" then .swapCreated
  else if s = "transaction.mempool" then .transactionMempool
  else if s = "transaction.confirmed" then .transactionConfirmed
  else if s = "transaction.claimed" then .transactionClaimed
  else if s = "transaction.lockupFailed" then .transactionLockupFailed
  else if s = "invoice.set" then .invoiceSet
  else if s = "invoice.paid" then .invoicePaid
  else if s = "invoice.pending" then .invoicePending
  else if s = "invoice.settled" then .invoiceSettled
  else if s = "invoice.failedToPay" then .invoiceFailedToPay
  else if s = "swap.expired" then .swapExpired
  else if s = "swap.refunded" then .swapRefunded
  else .unknown s

/-- Modelled from the spec: the string form of boltz.SwapRefunded. -/
def swapRefundedString : String := "swap.refunded"

/-- States of an invoice as reported by LND (lnrpc.Invoice_InvoiceState). -/
inductive LnInvoiceState where
  | opened
  | settled
  | canceled
  | accepted
  deriving DecidableEq

/-- Invoice information returned by lnd.LookupInvoice. -/
structure LnInvoice where
  state : LnInvoiceState
  deriving DecidableEq

/-- The database.Swap row as the nursery sees it.  The field name
timoutBlockHeight reproduces the spelling of the source.  The refundAddress
column is written by the RefundSwap RPC (rpcserver/router.go line 214). -/
structure Swap where
  id : String
  invoice : String
  address : String
  refundAddress : String
  privateKey : Nat
  redeemScript : Bytes
  timoutBlockHeight : Nat
  deriving DecidableEq

/-- Oracles of handleSwapStatus: invoice decoding and the LND invoice lookup,
plus the database status update (whose failure is only logged). -/
structure NurseryEnv where
  /-- zpay32.Decode on the invoice of the swap. -/
  decodeInvoice : String → Option Router.DecodedInvoice
  /-- lnd.LookupInvoice by payment hash. -/
  lookupInvoice : Bytes → Option LnInvoice
  /-- database.UpdateSwapStatus succeeded (a failure is only logged). -/
  dbUpdateOk : Bool

/-- Embedding of handleSwapStatus (nursery sources, lines 258 to 290).  The
return value is the status that database.UpdateSwapStatus was asked to write;
`none` means the function returned before reaching the update. -/
def handleSwapStatus (env : NurseryEnv) (swap : Swap) (status : String) :
    Option SwapEvent :=
  let parsedStatus := ParseEvent status
  match parsedStatus with
  | .transactionClaimed =>
    -- verify that the invoice was actually paid
    match env.decodeInvoice swap.invoice with
    | none => none
    | some decodedInvoice =>
      match env.lookupInvoice decodedInvoice.paymentHash with
      | none => none
      | some invoiceInfo =>
        if invoiceInfo.state ≠ .settled then none
        else some parsedStatus
  | _ => some parsedStatus

/-- A transaction output: the addresses its script decodes to under the chain
parameters (txscript.ExtractPkScriptAddrs), or `none` when decoding fails. -/
structure TxOut where
  addresses : Option (List String)
  deriving DecidableEq

/-- Worker of findLockupVout, carrying the current vout index. -/
def findLockupVoutAux (addressToFind : String) : List TxOut → Nat → Option Nat
  | [], _ => none
  | output :: rest, vout =>
    match output.addresses with
    | none =>
      -- just ignore outputs we cannot decode
      findLockupVoutAux addressToFind rest (vout + 1)
    | some outputAddresses =>
      if outputAddresses.contains addressToFind then some vout
      else findLockupVoutAux addressToFind rest (vout + 1)

/-- Embedding of findLockupVout (nursery sources, lines 141 to 158). -/
def findLockupVout (addressToFind : String) (outputs : List TxOut) : Option Nat :=
  findLockupVoutAux addressToFind outputs 0

/-- A parsed lockup transaction: its id and outputs. -/
structure LockupTx where
  txid : String
  outputs : List TxOut
  deriving DecidableEq

/-- A constructed refund transaction: single input, single output. -/
structure RefundTx where
  inputTxId : String
  inputVout : Nat
  outputAddress : String
  lockTime : Nat
  deriving DecidableEq

/-- Modelled from the spec: boltz.ConstructRefundTransaction is not among the
sources.  Per section 4.B the builder returns a single input, single output
transaction spending the given vout of the lockup transaction, paying the
destination address, with nLockTime set to the timeout block height; it can
fail (for instance when the remaining amount is below the dust threshold),
which the builderOk oracle captures. -/
def ConstructRefundTransaction (builderOk : Bool) (lockupTxId : String)
    (lockupVout : Nat) (_privateKey : Nat) (_redeemScript : Bytes)
    (address : String) (timeoutBlockHeight : Nat) : Option RefundTx :=
  if builderOk then some ⟨lockupTxId, lockupVout, address, timeoutBlockHeight⟩
  else none

/-- Oracles of refundSwap, one per external call, in source order. -/
structure RefundEnv where
  /-- lnd.NewAddress: the fresh destination address, or an error. -/
  lndNewAddress : Option String
  /-- btcutil.DecodeAddress on that address succeeded. -/
  decodeAddressOk : String → Bool
  /-- boltz.GetSwapTransaction: the lockup transaction hex, or an error. -/
  getSwapTransaction : String → Option String
  /-- hex.DecodeString plus btcutil.NewTxFromBytes, folded into one parse. -/
  parseTransaction : String → Option LockupTx
  /-- The refund transaction builder succeeded (fee and dust checks). -/
  builderOk : Bool
  /-- boltz.SerializeTransaction. -/
  serializeTx : RefundTx → Option String
  /-- boltz.BroadcastTransaction succeeded. -/
  broadcastOk : String → Bool

/-- Observable outcome of refundSwap: the transaction it constructed, the hex
it broadcast, and the status write performed through handleSwapStatus. -/
structure RefundTrace where
  constructed : Option RefundTx
  broadcast : Option String
  statusWrite : Option SwapEvent

/-- Embedding of refundSwap (nursery sources, lines 61 to 139).  Every failing
step logs and returns, leaving the trace empty from that point on. -/
def refundSwap (env : RefundEnv) (nenv : NurseryEnv) (swap : Swap) : RefundTrace :=
  match env.lndNewAddress with
  | none => ⟨none, none, none⟩
  | some addressString =>
  if !env.decodeAddressOk addressString then ⟨none, none, none⟩
  else
  match env.getSwapTransaction swap.id with
  | none => ⟨none, none, none⟩
  | some transactionHex =>
  match env.parseTransaction transactionHex with
  | none => ⟨none, none, none⟩
  | some lockupTransaction =>
  match findLockupVout swap.address lockupTransaction.outputs with
  | none => ⟨none, none, none⟩
  | some lockupVout =>
  match ConstructRefundTransaction env.builderOk lockupTransaction.txid lockupVout
      swap.privateKey swap.redeemScript addressString swap.timoutBlockHeight with
  | none => ⟨none, none, none⟩
  | some refundTransaction =>
  match env.serializeTx refundTransaction with
  | none => ⟨some refundTransaction, none, none⟩
  | some refundTransactionHex =>
  if !env.broadcastOk refundTransactionHex then ⟨some refundTransaction, none, none⟩
  else
    ⟨some refundTransaction, some refundTransactionHex,
      handleSwapStatus nenv swap swapRefundedString⟩

end Nursery

namespace Ws

/-- The reconnect interval constant of the websocket client, in seconds
(boltz websocket sources, line 88: 15 * time.Second). -/
def reconnectIntervalSeconds : Nat := 15

/-- The subscribe acknowledgement timeout, in seconds (line 232). -/
def subscribeAckTimeoutSeconds : Nat := 5

/-- Embedding of Connect as seen by the retry loop: when the client has called
Close, Connect returns an error at once without dialing; otherwise the dial
oracle decides (lines 129 to 151). -/
def connectOutcome (closed dialOk : Bool) : Except String Unit :=
  if closed then .error "websocket is closed"
  else if dialOk then .ok ()
  else .error "could not connect to boltz ws"

/-- Does the retry attempt numbered n succeed?  The state of the world at each
attempt is given by the closed and dialOk traces. -/
def retrySucceedsAt (closed dialOk : Nat → Bool) (n : Nat) : Bool :=
  !(isErr (connectOutcome (closed n) (dialOk n)))

/-- Embedding of the reconnect loop at the end of the read goroutine (lines
205 to 212), run for a bounded number of iterations: the index of the first
successful attempt, or `none` when the loop is still retrying after `fuel`
attempts (the source loop has no exit other than a successful Connect). -/
def retryLoopRun (closed dialOk : Nat → Bool) : Nat → Nat → Option Nat
  | _start, 0 => none
  | start, fuel + 1 =>
    if retrySucceedsAt closed dialOk start then some start
    else retryLoopRun closed dialOk (start + 1) fuel

/-- One observable step of the reconnect loop. -/
inductive RetryAction where
  | sleepFor (seconds : Nat)
  | connectCall (dialed : Bool)
  deriving DecidableEq

/-- Action trace of the reconnect loop: every iteration sleeps for the
reconnect interval and then calls Connect, which dials only while the client
has not called Close. -/
def retryTrace (closed dialOk : Nat → Bool) : Nat → Nat → List RetryAction
  | _start, 0 => []
  | start, fuel + 1 =>
    RetryAction.sleepFor reconnectIntervalSeconds ::
    RetryAction.connectCall (!closed start) ::
    (if retrySucceedsAt closed dialOk start then []
     else retryTrace closed dialOk (start + 1) fuel)

/-- What the read goroutine does when ReadMessage fails (lines 155 to 163):
if the client closed the socket, close the Updates channel and return;
otherwise fall through to the reconnect loop. -/
inductive LossOutcome where
  | shutdownUpdatesClosed
  | startRetrying
  deriving DecidableEq

/-- Embedding of the ReadMessage error branch of the read goroutine. -/
def onReadLoopError (closed : Bool) : LossOutcome :=
  if closed then .shutdownUpdatesClosed else .startRetrying

/-- The subscribe request message (lines 222 to 226). -/
structure SubscribeMsg where
  op : String
  channel : String
  args : List String
  deriving DecidableEq

/-- Observable outcome of one Subscribe call: the message sent (if any) and
the returned value. -/
structure SubscribeTrace where
  sent : Option SubscribeMsg
  result : Except String Unit

/-- Embedding of Subscribe (lines 218 to 235).  The ackWithinTimeout oracle
tells whether a subscribe acknowledgement arrived on the subscriptions channel
before the timeout of subscribeAckTimeoutSeconds fired. -/
def subscribeWs (sendOk : Bool) (ackWithinTimeout : Bool) (swapIds : List String) :
    SubscribeTrace :=
  if swapIds.length = 0 then ⟨none, .ok ()⟩
  else
    let msg : SubscribeMsg := ⟨"subscribe", "swap.update", swapIds⟩
    if !sendOk then ⟨some msg, .error "send failed"⟩
    else if ackWithinTimeout then ⟨some msg, .ok ()⟩
    else ⟨some msg, .error "no answer from boltz"⟩

end Ws

namespace Router

lemma swapChecked_ok_checks (sha256 : Bytes → Bytes) (env : SwapEnv) (isAuto : Bool)
    (req : CreateSwapRpcRequest) (v : DBSwap × BoltzCreateSwapRequest × Bytes)
    (h : swapChecked sha256 env isAuto req = .ok v) :
    env.treeCheck = true ∧ env.addressCheck = true := by
  unfold swapChecked at h
  repeat' (first | split at h | dsimp only at h)
  all_goals simp_all

lemma swapChecked_err_of_check_fail (sha256 : Bytes → Bytes) (env : SwapEnv) (isAuto : Bool)
    (req : CreateSwapRpcRequest)
    (h : env.treeCheck = false ∨ env.addressCheck = false) :
    ∃ err, swapChecked sha256 env isAuto req = .error err := by
  unfold swapChecked
  repeat' (first | split | dsimp only)
  all_goals simp_all

lemma createSwap_of_checked_err (sha256 : Bytes → Bytes) (env : SwapEnv) (isAuto : Bool)
    (req : CreateSwapRpcRequest) (e : String × Option BoltzCreateSwapRequest × Option Bytes)
    (h : swapChecked sha256 env isAuto req = .error e) :
    createSwap sha256 env isAuto req = ⟨.error e.1, [], e.2.1, e.2.2⟩ := by
  unfold createSwap
  rw [h]

lemma createSwap_persisted_mem (sha256 : Bytes → Bytes) (env : SwapEnv) (isAuto : Bool)
    (req : CreateSwapRpcRequest) (row : DBSwap)
    (h : row ∈ (createSwap sha256 env isAuto req).persisted) :
    ∃ sent ph, swapChecked sha256 env isAuto req = .ok (row, sent, ph) ∧
      (createSwap sha256 env isAuto req).sent = some sent ∧
      (createSwap sha256 env isAuto req).preimageHashUsed = some ph := by
  unfold createSwap at h ⊢
  repeat' (first | split at h | dsimp only at h)
  all_goals simp_all

/-- The payment hash of the invoice that the user supplied or that was created
on the attached node, stated in the vocabulary of the specification. -/
def suppliedOrCreatedInvoiceHash (env : SwapEnv) (req : CreateSwapRpcRequest) :
    Option Bytes :=
  if req.invoice ≠ "" then (env.decodeInvoice req.invoice).map DecodedInvoice.paymentHash
  else if req.amount ≠ 0 then (env.createInvoice).map NewInvoice.paymentHash
  else none

lemma newPreimage_some (sha256 : Bytes → Bytes) (rb : Option (Fin 32 → Nat))
    (p ph : Bytes) (h : newPreimage sha256 rb = some (p, ph)) :
    ∃ f, rb = some f ∧ p = List.ofFn f ∧ ph = sha256 p := by
  cases rb with
  | none => simp [newPreimage] at h
  | some f =>
    simp [newPreimage] at h
    exact ⟨f, rfl, h.1.symm, by rw [← h.1, ← h.2]⟩

lemma selectPreimage_ok (sha256 : Bytes → Bytes) (env : SwapEnv)
    (req : CreateSwapRpcRequest) (p ph : Bytes) (inv : String) (rph : Bytes)
    (h : selectPreimage sha256 env req = .ok (p, ph, inv, rph)) :
    (p = [] ∧ suppliedOrCreatedInvoiceHash env req = some ph ∧ rph = []) ∨
    (newPreimage sha256 env.randBytes = some (p, ph) ∧ rph = ph) := by
  unfold selectPreimage at h
  repeat' (first | split at h | dsimp only at h)
  all_goals (try simp_all [suppliedOrCreatedInvoiceHash])
  all_goals aesop

lemma reverseChecked_ok_checks (sha256 : Bytes → Bytes) (env : ReverseEnv) (isAuto : Bool)
    (req : CreateReverseSwapRpcRequest)
    (v : Bool × Bool × DBReverseSwap × BoltzCreateReverseSwapRequest)
    (h : reverseChecked sha256 env isAuto req = .ok v) :
    env.treeCheck = true ∧ env.addressCheck = true := by
  unfold reverseChecked at h
  repeat' (first | split at h | dsimp only at h)
  all_goals simp_all

lemma reverseChecked_err_of_check_fail (sha256 : Bytes → Bytes) (env : ReverseEnv)
    (isAuto : Bool) (req : CreateReverseSwapRpcRequest)
    (h : env.treeCheck = false ∨ env.addressCheck = false) :
    ∃ err, reverseChecked sha256 env isAuto req = .error err := by
  unfold reverseChecked
  repeat' (first | split | dsimp only)
  all_goals simp_all

lemma createReverseSwap_of_checked_err (sha256 : Bytes → Bytes) (env : ReverseEnv)
    (isAuto : Bool) (req : CreateReverseSwapRpcRequest)
    (e : String × Option BoltzCreateReverseSwapRequest)
    (h : reverseChecked sha256 env isAuto req = .error e) :
    createReverseSwap sha256 env isAuto req = ⟨.error e.1, [], [], e.2⟩ := by
  unfold createReverseSwap
  rw [h]

lemma createReverseSwap_persisted_mem (sha256 : Bytes → Bytes) (env : ReverseEnv)
    (isAuto : Bool) (req : CreateReverseSwapRpcRequest) (row : DBReverseSwap)
    (h : row ∈ (createReverseSwap sha256 env isAuto req).persisted) :
    ∃ ep ri sent, reverseChecked sha256 env isAuto req = .ok (ep, ri, row, sent) := by
  unfold createReverseSwap at h
  repeat' (first | split at h | dsimp only at h)
  all_goals simp_all

lemma reverseChecked_ok_shape (sha256 : Bytes → Bytes) (env : ReverseEnv)
    (isAuto : Bool) (req : CreateReverseSwapRpcRequest) (ep ri : Bool)
    (row : DBReverseSwap) (sent : BoltzCreateReverseSwapRequest)
    (h : reverseChecked sha256 env isAuto req = .ok (ep, ri, row, sent)) :
    newPreimage sha256 env.randBytes = some (row.preimage, sent.preimageHash) ∧
    ∃ inv, env.decodeInvoice row.invoice = some inv ∧ inv.paymentHash = sent.preimageHash := by
  unfold reverseChecked at h
  repeat' (first | split at h | dsimp only at h)
  all_goals (try simp_all)
  all_goals aesop

lemma createReverseSwap_ok_persisted (sha256 : Bytes → Bytes) (env : ReverseEnv)
    (isAuto : Bool) (req : CreateReverseSwapRpcRequest)
    (h : isErr (createReverseSwap sha256 env isAuto req).result = false) :
    (createReverseSwap sha256 env isAuto req).persisted ≠ [] := by
  unfold createReverseSwap at h ⊢
  repeat' (first | split at h | dsimp only at h)
  all_goals (try simp_all [isErr])
  all_goals aesop

end Router

namespace Nursery

/-- Does output j of the list decode to an address list containing the target?
This is the matching notion of the claim, stated directly on the data. -/
def voutMatches (addressToFind : String) (outputs : List TxOut) (j : Nat) : Bool :=
  match outputs.get? j with
  | none => false
  | some output =>
    match output.addresses with
    | none => false
    | some addrs => addrs.contains addressToFind

lemma voutMatches_nil (a : String) (j : Nat) : voutMatches a [] j = false := by
  cases j <;> rfl

lemma voutMatches_cons_succ (a : String) (o : TxOut) (rest : List TxOut) (j : Nat) :
    voutMatches a (o :: rest) (j + 1) = voutMatches a rest j := rfl

lemma voutMatches_cons_zero (a : String) (o : TxOut) (rest : List TxOut) :
    voutMatches a (o :: rest) 0 =
      (match o.addresses with
       | none => false
       | some addrs => addrs.contains a) := rfl

lemma findLockupVoutAux_spec (a : String) :
    ∀ (outs : List TxOut) (k : Nat),
      (∀ v, findLockupVoutAux a outs k = some v ↔
        ∃ i, v = k + i ∧ voutMatches a outs i = true ∧
          ∀ j, j < i → voutMatches a outs j = false)
      ∧ (findLockupVoutAux a outs k = none ↔ ∀ j, voutMatches a outs j = false) := by
  intro outs
  induction outs with
  | nil =>
    intro k
    constructor
    · intro v
      simp [findLockupVoutAux, voutMatches_nil]
    · simp [findLockupVoutAux, voutMatches_nil]
  | cons o rest ih =>
    intro k
    by_cases hmatch : voutMatches a (o :: rest) 0 = true
    · -- the head output matches: the search stops at index k
      have haux : findLockupVoutAux a (o :: rest) k = some k := by
        rw [voutMatches_cons_zero] at hmatch
        cases ho : o.addresses with
        | none => rw [ho] at hmatch; simp at hmatch
        | some addrs =>
          rw [ho] at hmatch; simp at hmatch
          simp only [findLockupVoutAux, ho]
          simp [hmatch]
      constructor
      · intro v
        rw [haux]
        constructor
        · intro hv
          refine ⟨0, ?_, hmatch, ?_⟩
          · simpa using (Option.some.inj hv).symm
          · intro j hj; omega
        · rintro ⟨i, hv, hm, hall⟩
          cases i with
          | zero => simp [hv]
          | succ i => exact absurd hmatch (by simp [hall 0 (Nat.succ_pos i)])
      · rw [haux]
        constructor
        · intro h; cases h
        · intro h
          exact absurd (h 0) (by simp [hmatch])
    · -- the head output does not match: the search continues with index k+1
      have hm0 : voutMatches a (o :: rest) 0 = false := by
        cases h : voutMatches a (o :: rest) 0
        · rfl
        · exact absurd h hmatch
      have haux : findLockupVoutAux a (o :: rest) k = findLockupVoutAux a rest (k + 1) := by
        rw [voutMatches_cons_zero] at hm0
        cases ho : o.addresses with
        | none => simp only [findLockupVoutAux, ho]
        | some addrs =>
          rw [ho] at hm0; simp at hm0
          simp only [findLockupVoutAux, ho]
          simp [hm0]
      constructor
      · intro v
        rw [haux, ((ih (k + 1)).1 v)]
        constructor
        · rintro ⟨i, hv, hm, hall⟩
          refine ⟨i + 1, by omega, by rwa [voutMatches_cons_succ], ?_⟩
          intro j hj
          cases j with
          | zero => exact hm0
          | succ j => rw [voutMatches_cons_succ]; exact hall j (by omega)
        · rintro ⟨i, hv, hm, hall⟩
          cases i with
          | zero => exact absurd hm (by simp [hm0])
          | succ i =>
            refine ⟨i, by omega, by rwa [voutMatches_cons_succ] at hm, ?_⟩
            intro j hj
            have := hall (j + 1) (by omega)
            rwa [voutMatches_cons_succ] at this
      · rw [haux, (ih (k + 1)).2]
        constructor
        · intro h j
          cases j with
          | zero => exact hm0
          | succ j => rw [voutMatches_cons_succ]; exact h j
        · intro h j
          have := h (j + 1)
          rwa [voutMatches_cons_succ] at this

lemma findLockupVout_some_iff (a : String) (outs : List TxOut) (v : Nat) :
    findLockupVout a outs = some v ↔
      voutMatches a outs v = true ∧ ∀ j, j < v → voutMatches a outs j = false := by
  unfold findLockupVout
  rw [(findLockupVoutAux_spec a outs 0).1 v]
  constructor
  · rintro ⟨i, hv, hm, hall⟩
    have : v = i := by omega
    subst this
    exact ⟨hm, hall⟩
  · rintro ⟨hm, hall⟩
    exact ⟨v, by omega, hm, hall⟩

lemma findLockupVout_none_iff (a : String) (outs : List TxOut) :
    findLockupVout a outs = none ↔ ∀ j, voutMatches a outs j = false := by
  unfold findLockupVout
  exact (findLockupVoutAux_spec a outs 0).2

end Nursery

namespace Router

lemma swapChecked_ok_shape (sha256 : Bytes → Bytes) (env : SwapEnv) (isAuto : Bool)
    (req : CreateSwapRpcRequest) (row : DBSwap) (sent : BoltzCreateSwapRequest)
    (ph : Bytes) (h : swapChecked sha256 env isAuto req = .ok (row, sent, ph)) :
    selectPreimage sha256 env req = .ok (row.preimage, ph, row.invoice, sent.preimageHash) := by
  unfold swapChecked at h
  repeat' (first | split at h | dsimp only at h)
  all_goals (try simp_all)
  all_goals aesop

end Router

namespace Nursery

lemma refundSwap_constructed_shape (env : RefundEnv) (nenv : NurseryEnv)
    (swap : Swap) (tx : RefundTx)
    (h : (refundSwap env nenv swap).constructed = some tx) :
    tx.lockTime = swap.timoutBlockHeight ∧
    env.lndNewAddress = some tx.outputAddress ∧
    ∃ hex ltx, env.getSwapTransaction swap.id = some hex ∧
      env.parseTransaction hex = some ltx ∧ tx.inputTxId = ltx.txid ∧
      findLockupVout swap.address ltx.outputs = some tx.inputVout := by
  unfold refundSwap ConstructRefundTransaction at h
  repeat' (first | split at h | dsimp only at h)
  all_goals (try simp_all)
  all_goals aesop

end Nursery

namespace Ws

lemma retryLoopRun_some_spec (closed dialOk : Nat → Bool) :
    ∀ (fuel start n : Nat), retryLoopRun closed dialOk start fuel = some n →
      retrySucceedsAt closed dialOk n = true ∧ start ≤ n ∧
        ∀ m, start ≤ m → m < n → retrySucceedsAt closed dialOk m = false := by
  intro fuel
  induction fuel with
  | zero => intro start n h; simp [retryLoopRun] at h
  | succ fuel ih =>
    intro start n h
    unfold retryLoopRun at h
    by_cases hs : retrySucceedsAt closed dialOk start = true
    · rw [if_pos hs] at h
      have hn : start = n := Option.some.inj h
      subst hn
      exact ⟨hs, Nat.le_refl start, fun m h1 h2 => by omega⟩
    · rw [if_neg hs] at h
      obtain ⟨h1, h2, h3⟩ := ih (start + 1) n h
      refine ⟨h1, by omega, ?_⟩
      intro m hm1 hm2
      by_cases hm : m = start
      · subst hm
        exact Bool.not_eq_true _ ▸ (by simpa using hs)
      · exact h3 m (by omega) hm2

lemma retryLoopRun_none_of_never (closed dialOk : Nat → Bool)
    (h : ∀ m, retrySucceedsAt closed dialOk m = false) :
    ∀ (fuel start : Nat), retryLoopRun closed dialOk start fuel = none := by
  intro fuel
  induction fuel with
  | zero => intro start; rfl
  | succ fuel ih =>
    intro start
    unfold retryLoopRun
    rw [h start]
    simpa using ih (start + 1)

lemma retryTrace_actions (closed dialOk : Nat → Bool) :
    ∀ (fuel start : Nat) (act : RetryAction), act ∈ retryTrace closed dialOk start fuel →
      act = RetryAction.sleepFor reconnectIntervalSeconds ∨
        ∃ d, act = RetryAction.connectCall d := by
  intro fuel
  induction fuel with
  | zero => intro start act h; simp [retryTrace] at h
  | succ fuel ih =>
    intro start act h
    unfold retryTrace at h
    rcases List.mem_cons.mp h with h1 | h
    · exact Or.inl h1
    rcases List.mem_cons.mp h with h2 | h
    · exact Or.inr ⟨_, h2⟩
    by_cases hs : retrySucceedsAt closed dialOk start = true
    · rw [if_pos hs] at h; simp at h
    · rw [if_neg hs] at h; exact ih (start + 1) act h

lemma retrySucceedsAt_false_of_closed (closed dialOk : Nat → Bool) (m : Nat)
    (h : closed m = true) : retrySucceedsAt closed dialOk m = false := by
  simp [retrySucceedsAt, connectOutcome, h, isErr]

end Ws

/-! Spec side predicates and demonstration inputs used by the claim theorems
and their witnesses. -/

/-- Has the local invoice of a submarine swap been confirmed settled on the
attached node?  This is the condition of the specification: the invoice
decodes, the lookup succeeds, and the reported state is SETTLED. -/
def invoiceConfirmedSettled (env : Nursery.NurseryEnv) (swap : Nursery.Swap) : Bool :=
  match env.decodeInvoice swap.invoice with
  | none => false
  | some decoded =>
    match env.lookupInvoice decoded.paymentHash with
    | none => false
    | some info => if info.state = Nursery.LnInvoiceState.settled then true else false

/-- A stand in for sha256 used by the concrete witnesses (the embedding takes
the hash function as a parameter). -/
def demoHash : Bytes → Bytes := fun b => [b.length]

/-- A createSwap request with no invoice and zero amount: the daemon generates
the preimage itself. -/
def demoSwapReqGen : Router.CreateSwapRpcRequest := ⟨"", 0, false, "", "", false⟩

/-- A fully successful createSwap environment. -/
def demoSwapEnvOk : Router.SwapEnv :=
  { newKeys := some (1, 2)
    submarinePairHash := some "ph1"
    decodeInvoice := fun _ => some ⟨[32]⟩
    hasLightning := true
    createInvoice := some ⟨[7], "lnbc1"⟩
    randBytes := some (fun _ => 0)
    getWallet := some "w1"
    boltzCreateSwap := fun _ => some ⟨"sid", "lockaddr", 1000, 800⟩
    parsePubKey := true
    initTree := true
    treeCheck := true
    addressCheck := true
    dbCreateOk := true
    getBlockHeight := some 700
    estimateFee := some 2
    sendToAddress := some "tx1"
    registerOk := true }

/-- The same environment with a failing swap tree check. -/
def demoSwapEnvBadTree : Router.SwapEnv := { demoSwapEnvOk with treeCheck := false }

/-- The row createSwap persists under demoSwapEnvOk and demoSwapReqGen. -/
def demoSwapRow : Router.DBSwap :=
  { id := "sid"
    state := Router.SwapState.pending
    preimage := List.ofFn (fun _ : Fin 32 => 0)
    invoice := ""
    address := "lockaddr"
    refundAddress := ""
    expectedAmount := 1000
    timeoutBlockHeight := 800
    isAuto := false
    wallet := "" }

/-- A reverse swap request paying to a user supplied claim address with
external payment. -/
def demoReverseReq : Router.CreateReverseSwapRpcRequest :=
  ⟨100000, "claimaddr", false, some true, none, [], "", false⟩

/-- A fully successful createReverseSwap environment; the decoded invoice hash
matches demoHash of the 32 zero bytes that demoHash will be fed. -/
def demoReverseEnvOk : Router.ReverseEnv :=
  { hasLightning := true
    validateAddress := fun _ => true
    getWallet := some "w1"
    walletNewAddress := some "walletaddr"
    randBytes := some (fun _ => 0)
    newKeys := some (1, 2)
    reversePairHash := some "rp1"
    boltzCreateReverse := fun _ => some ⟨"rid", "lninvoice", "lockupaddr", 990, 850⟩
    parseRefundPubKey := true
    parseChanId := fun _ => some 9
    initTree := true
    treeCheck := true
    addressCheck := true
    decodeInvoice := fun _ => some ⟨[32]⟩
    dbCreateOk := true
    registerOk := true
    payReverseSwap := Except.ok ()
    dbUpdateStateOk := true
    waitOutcome := Except.ok () }

/-- The same environment with a failing address check. -/
def demoReverseEnvBadAddr : Router.ReverseEnv :=
  { demoReverseEnvOk with addressCheck := false }

/-- The row createReverseSwap persists under demoReverseEnvOk and
demoReverseReq. -/
def demoReverseRow : Router.DBReverseSwap :=
  { id := "rid"
    acceptZeroConf := false
    preimage := List.ofFn (fun _ : Fin 32 => 0)
    invoice := "lninvoice"
    claimAddress := "claimaddr"
    onchainAmount := 990
    timeoutBlockHeight := 850
    isAuto := false
    externalPay := true
    chanIds := [] }

/-- A refund environment whose lockup transaction pays the lockup address at
vout 0, with a fresh node address distinct from the stored refund address. -/
def demoRefundEnv : Nursery.RefundEnv :=
  { lndNewAddress := some "fresh"
    decodeAddressOk := fun _ => true
    getSwapTransaction := fun _ => some "rawhex"
    parseTransaction := fun _ => some ⟨"lockuptx", [⟨some ["lockaddr"]⟩]⟩
    builderOk := true
    serializeTx := fun _ => some "refundhex"
    broadcastOk := fun _ => true }

/-- A nursery environment whose invoice lookup reports SETTLED. -/
def demoNurseryEnv : Nursery.NurseryEnv :=
  { decodeInvoice := fun _ => some ⟨[32]⟩
    lookupInvoice := fun _ => some ⟨Nursery.LnInvoiceState.settled⟩
    dbUpdateOk := true }

/-- A refundable swap whose row stores a refund address. -/
def demoStoredSwap : Nursery.Swap :=
  ⟨"s1", "lninv", "lockaddr", "stored", 7, [81], 800⟩

/-- Outputs for the findLockupVout witness: an undecodable output, then a non
matching one, then one whose address list contains the target. -/
def demoOuts : List Nursery.TxOut := [⟨none⟩, ⟨some ["x"]⟩, ⟨some ["a", "y"]⟩]

/-- A gRPC handler used by the interceptor witness. -/
def demoHandler : Unit → Except String String := fun _ => Except.ok "handled"

/-- An unlock environment with no stored credentials. -/
def demoUnlockEnv : Router.UnlockEnv := ⟨some [], fun _ => some "w", true, true⟩

/-- Closed trace for the websocket witness: never closed, dial succeeds at the
third attempt. -/
def wsDemoClosed : Nat → Bool := fun _ => false

/-- Dial trace for the websocket witness. -/
def wsDemoDial : Nat → Bool := fun m => m == 2

/-- C1: swap creation is all or nothing.  If the locally reconstructed swap
tree check or the address check fails, createSwap and createReverseSwap
return an error and persist nothing; conversely a persisted row implies both
verifications succeeded, so the database write happens only after them. -/
theorem createSwap_all_or_nothing (sha256 : Bytes → Bytes)
    (envS : Router.SwapEnv) (isAutoS : Bool) (reqS : Router.CreateSwapRpcRequest)
    (envR : Router.ReverseEnv) (isAutoR : Bool) (reqR : Router.CreateReverseSwapRpcRequest) :
    ((envS.treeCheck = false ∨ envS.addressCheck = false) →
      isErr (Router.createSwap sha256 envS isAutoS reqS).result = true ∧
        (Router.createSwap sha256 envS isAutoS reqS).persisted = [])
    ∧ ((Router.createSwap sha256 envS isAutoS reqS).persisted ≠ [] →
        envS.treeCheck = true ∧ envS.addressCheck = true)
    ∧ ((envR.treeCheck = false ∨ envR.addressCheck = false) →
        isErr (Router.createReverseSwap sha256 envR isAutoR reqR).result = true ∧
          (Router.createReverseSwap sha256 envR isAutoR reqR).persisted = [])
    ∧ ((Router.createReverseSwap sha256 envR isAutoR reqR).persisted ≠ [] →
        envR.treeCheck = true ∧ envR.addressCheck = true) := by
  refine ⟨?_, ?_, ?_, ?_⟩
  · intro h
    obtain ⟨err, herr⟩ := Router.swapChecked_err_of_check_fail sha256 envS isAutoS reqS h
    rw [Router.createSwap_of_checked_err sha256 envS isAutoS reqS err herr]
    exact ⟨rfl, rfl⟩
  · intro h
    obtain ⟨row, hrow⟩ := List.exists_mem_of_ne_nil _ h
    obtain ⟨sent, ph, hok, _, _⟩ :=
      Router.createSwap_persisted_mem sha256 envS isAutoS reqS row hrow
    exact Router.swapChecked_ok_checks sha256 envS isAutoS reqS _ hok
  · intro h
    obtain ⟨err, herr⟩ := Router.reverseChecked_err_of_check_fail sha256 envR isAutoR reqR h
    rw [Router.createReverseSwap_of_checked_err sha256 envR isAutoR reqR err herr]
    exact ⟨rfl, rfl⟩
  · intro h
    obtain ⟨row, hrow⟩ := List.exists_mem_of_ne_nil _ h
    obtain ⟨ep, ri, sent, hok⟩ :=
      Router.createReverseSwap_persisted_mem sha256 envR isAutoR reqR row hrow
    exact Router.reverseChecked_ok_checks sha256 envR isAutoR reqR _ hok

/-- C1 witness: concrete environments with a failing tree check (submarine)
and a failing address check (reverse). -/
theorem createSwap_all_or_nothing_witness :
    (isErr (Router.createSwap demoHash demoSwapEnvBadTree false demoSwapReqGen).result = true ∧
      (Router.createSwap demoHash demoSwapEnvBadTree false demoSwapReqGen).persisted = []) ∧
    (isErr (Router.createReverseSwap demoHash demoReverseEnvBadAddr false demoReverseReq).result = true ∧
      (Router.createReverseSwap demoHash demoReverseEnvBadAddr false demoReverseReq).persisted = []) := by
  have h := createSwap_all_or_nothing demoHash demoSwapEnvBadTree false demoSwapReqGen
    demoReverseEnvBadAddr false demoReverseReq
  exact ⟨h.1 (Or.inl rfl), h.2.2.1 (Or.inr rfl)⟩

/-- C2: on the status transaction.claimed (the successful status of a
submarine swap) the nursery asks the database to write that status exactly
when the local invoice decodes, the LND lookup succeeds, and the invoice is
reported SETTLED; in every other case handleSwapStatus returns without any
status write. -/
theorem handleSwapStatus_claimed_requires_settled (env : Nursery.NurseryEnv)
    (swap : Nursery.Swap) :
    Nursery.handleSwapStatus env swap "transaction.claimed" =
      (if invoiceConfirmedSettled env swap then
        some Nursery.SwapEvent.transactionClaimed
      else none) := by
  have hpe : Nursery.ParseEvent "transaction.claimed" =
      Nursery.SwapEvent.transactionClaimed := by decide
  simp only [Nursery.handleSwapStatus, invoiceConfirmedSettled, hpe]
  repeat' split
  all_goals simp_all

/-- C3: every refund transaction the nursery constructs has nLockTime equal
to the timeout block height of the swap and spends the vout of the fetched
lockup transaction whose decoded addresses contain the lockup address of the
swap (the transaction builder itself is modelled from the spec, since the
boltz package is not among the sources). -/
theorem refundSwap_locktime_and_vout (env : Nursery.RefundEnv)
    (nenv : Nursery.NurseryEnv) (swap : Nursery.Swap) (tx : Nursery.RefundTx)
    (h : (Nursery.refundSwap env nenv swap).constructed = some tx) :
    tx.lockTime = swap.timoutBlockHeight ∧
    ∃ hex ltx, env.getSwapTransaction swap.id = some hex ∧
      env.parseTransaction hex = some ltx ∧
      tx.inputTxId = ltx.txid ∧
      Nursery.voutMatches swap.address ltx.outputs tx.inputVout = true := by
  obtain ⟨hlock, _, hex, ltx, hget, hparse, hinp, hfind⟩ :=
    Nursery.refundSwap_constructed_shape env nenv swap tx h
  exact ⟨hlock, hex, ltx, hget, hparse, hinp,
    ((Nursery.findLockupVout_some_iff _ _ _).mp hfind).1⟩

/-- C3 witness: a concrete refund run; the constructed transaction locks at
the timeout height of the swap. -/
theorem refundSwap_locktime_and_vout_witness :
    (Nursery.refundSwap demoRefundEnv demoNurseryEnv demoStoredSwap).constructed =
      some ⟨"lockuptx", 0, "fresh", 800⟩ ∧
    (800 : Nat) = demoStoredSwap.timoutBlockHeight := by
  refine ⟨rfl, ?_⟩
  exact (refundSwap_locktime_and_vout demoRefundEnv demoNurseryEnv demoStoredSwap
    ⟨"lockuptx", 0, "fresh", 800⟩ rfl).1

/-- C4: evaluation of refundSwap at a swap whose row stores a refund address.
The refund output pays the address freshly drawn from LND, not the stored
refundAddress: the nursery never reads that column even though the RefundSwap
RPC persists it before triggering the refund. -/
theorem refundSwap_pays_fresh_address_not_stored :
    (Nursery.refundSwap demoRefundEnv demoNurseryEnv demoStoredSwap).constructed =
      some ⟨"lockuptx", 0, "fresh", 800⟩ ∧
    demoStoredSwap.refundAddress = "stored" ∧
    ("fresh" : String) ≠ "stored" := by
  exact ⟨rfl, rfl, by decide⟩

/-- C5: for every persisted submarine swap row exactly one of two cases holds:
the stored preimage is empty and the preimage hash variable came from the
supplied or created invoice, or a 32 byte preimage was generated and stored
and the hash variable is its sha256; and whenever the preimage is set, its
sha256 is the preimage hash field of the request sent to the exchange. -/
theorem createSwap_preimage_invariant (sha256 : Bytes → Bytes)
    (env : Router.SwapEnv) (isAuto : Bool) (req : Router.CreateSwapRpcRequest)
    (row : Router.DBSwap)
    (hrow : row ∈ (Router.createSwap sha256 env isAuto req).persisted) :
    Xor'
      (row.preimage = [] ∧
        ∃ ph, Router.suppliedOrCreatedInvoiceHash env req = some ph ∧
          (Router.createSwap sha256 env isAuto req).preimageHashUsed = some ph)
      (row.preimage.length = 32 ∧
        (Router.createSwap sha256 env isAuto req).preimageHashUsed =
          some (sha256 row.preimage))
    ∧ (row.preimage ≠ [] →
        ∃ sent, (Router.createSwap sha256 env isAuto req).sent = some sent ∧
          sent.preimageHash = sha256 row.preimage) := by
  obtain ⟨sent, ph, hok, hsent, hph⟩ :=
    Router.createSwap_persisted_mem sha256 env isAuto req row hrow
  have hsel := Router.swapChecked_ok_shape sha256 env isAuto req row sent ph hok
  rcases Router.selectPreimage_ok sha256 env req row.preimage ph row.invoice
      sent.preimageHash hsel with ⟨hp, hsoc, _⟩ | ⟨hnp, hrph⟩
  · refine ⟨Or.inl ⟨⟨hp, ph, hsoc, hph⟩, ?_⟩, ?_⟩
    · rintro ⟨hlen, _⟩
      rw [hp] at hlen
      simp at hlen
    · intro hne
      exact absurd hp hne
  · obtain ⟨f, _, hpre, hhash⟩ :=
      Router.newPreimage_some sha256 env.randBytes row.preimage ph hnp
    refine ⟨Or.inr ⟨⟨?_, ?_⟩, ?_⟩, ?_⟩
    · rw [hpre]; simp
    · rw [← hhash]; exact hph
    · rintro ⟨hpnil, _⟩
      rw [hpre] at hpnil
      have := congrArg List.length hpnil
      simp at this
    · intro _
      exact ⟨sent, hsent, hrph.trans hhash⟩

/-- C5 witness: under the fully successful generated preimage environment the
persisted row stores a 32 byte preimage whose hash is the recorded preimage
hash variable. -/
theorem createSwap_preimage_invariant_witness :
    demoSwapRow.preimage.length = 32 ∧
      (Router.createSwap demoHash demoSwapEnvOk false demoSwapReqGen).preimageHashUsed =
        some (demoHash demoSwapRow.preimage) := by
  have h := createSwap_preimage_invariant demoHash demoSwapEnvOk false demoSwapReqGen
    demoSwapRow (by decide)
  rcases h.1 with ⟨⟨hp, _⟩, _⟩ | ⟨hb, _⟩
  · exact absurd hp (by decide)
  · exact hb

/-- C6: a reverse swap row is persisted only when the invoice returned by the
exchange decodes to a payment hash equal to the sha256 of the locally
generated preimage, and a non error return implies a persisted row; hence a
hash mismatch makes createReverseSwap return an error with nothing persisted. -/
theorem createReverseSwap_invoice_hash_guard (sha256 : Bytes → Bytes)
    (env : Router.ReverseEnv) (isAuto : Bool) (req : Router.CreateReverseSwapRpcRequest) :
    (∀ row ∈ (Router.createReverseSwap sha256 env isAuto req).persisted,
      ∃ inv, env.decodeInvoice row.invoice = some inv ∧
        inv.paymentHash = sha256 row.preimage)
    ∧ (isErr (Router.createReverseSwap sha256 env isAuto req).result = false →
        (Router.createReverseSwap sha256 env isAuto req).persisted ≠ []) := by
  constructor
  · intro row hrow
    obtain ⟨ep, ri, sent, hok⟩ :=
      Router.createReverseSwap_persisted_mem sha256 env isAuto req row hrow
    obtain ⟨hnp, inv, hdec, hph⟩ :=
      Router.reverseChecked_ok_shape sha256 env isAuto req ep ri row sent hok
    obtain ⟨f, _, _, hhash⟩ :=
      Router.newPreimage_some sha256 env.randBytes row.preimage sent.preimageHash hnp
    exact ⟨inv, hdec, hph.trans hhash⟩
  · exact Router.createReverseSwap_ok_persisted sha256 env isAuto req

/-- C6 witness: under the fully successful reverse environment the persisted
row carries the invoice whose decoded payment hash is the hash of the stored
preimage. -/
theorem createReverseSwap_invoice_hash_guard_witness :
    demoReverseEnvOk.decodeInvoice demoReverseRow.invoice = some ⟨[32]⟩ ∧
      (⟨[32]⟩ : Router.DecodedInvoice).paymentHash = demoHash demoReverseRow.preimage := by
  obtain ⟨inv, hdec, hph⟩ :=
    (createReverseSwap_invoice_hash_guard demoHash demoReverseEnvOk false demoReverseReq).1
      demoReverseRow (by decide)
  have h1 : some inv = some (⟨[32]⟩ : Router.DecodedInvoice) := hdec.symm.trans rfl
  have h2 := Option.some.inj h1
  subst h2
  exact ⟨hdec, hph⟩

/-- C7: findLockupVout returns some v exactly when output v is the first one
whose decoded address list contains the lockup address (outputs that fail to
decode never match and are skipped), and returns an error exactly when no
output matches. -/
theorem findLockupVout_first_match (a : String) (outs : List Nursery.TxOut) :
    (∀ v, Nursery.findLockupVout a outs = some v ↔
      Nursery.voutMatches a outs v = true ∧
        ∀ j, j < v → Nursery.voutMatches a outs j = false)
    ∧ (Nursery.findLockupVout a outs = none ↔
        ∀ j, Nursery.voutMatches a outs j = false) :=
  ⟨fun v => Nursery.findLockupVout_some_iff a outs v,
    Nursery.findLockupVout_none_iff a outs⟩

/-- C7 witness: on a list with an undecodable output, a non matching output
and a matching one, the returned vout 2 matches. -/
theorem findLockupVout_first_match_witness :
    Nursery.voutMatches "a" demoOuts 2 = true :=
  (((findLockupVout_first_match "a" demoOuts).1 2).mp (by decide)).1

/-- C8 counterexample: once the client has called Close (the closed flag is
constantly true), the reconnect loop is still running after one hundred more
attempts and keeps calling Connect every 15 seconds without dialing; the
retries do not cease, refuting the claim as stated. -/
theorem wsRetry_after_close_counterexample :
    Ws.retryLoopRun (fun _ => true) (fun _ => true) 0 100 = none ∧
    Ws.retryTrace (fun _ => true) (fun _ => true) 0 2 =
      [Ws.RetryAction.sleepFor 15, Ws.RetryAction.connectCall false,
        Ws.RetryAction.sleepFor 15, Ws.RetryAction.connectCall false] := by
  exact ⟨by decide, rfl⟩

/-- C8 amended: after a loss not caused by Close the loop retries Connect at
the fixed 15 second interval with unbounded attempts, terminating exactly at
the first successful attempt; a Connect after Close fails without dialing, so
once Close was called no retry ever succeeds and the loop keeps running; a
loss caused by Close starts no retry at all. -/
theorem wsRetry_fixed_interval_until_success (closed dialOk : Nat → Bool)
    (start fuel n : Nat) :
    Ws.onReadLoopError false = Ws.LossOutcome.startRetrying
    ∧ Ws.onReadLoopError true = Ws.LossOutcome.shutdownUpdatesClosed
    ∧ Ws.reconnectIntervalSeconds = 15
    ∧ (∀ act ∈ Ws.retryTrace closed dialOk start fuel,
        act = Ws.RetryAction.sleepFor Ws.reconnectIntervalSeconds ∨
          ∃ d, act = Ws.RetryAction.connectCall d)
    ∧ (Ws.retryLoopRun closed dialOk start fuel = some n →
        Ws.retrySucceedsAt closed dialOk n = true ∧ start ≤ n ∧
          ∀ m, start ≤ m → m < n → Ws.retrySucceedsAt closed dialOk m = false)
    ∧ ((∀ m, Ws.retrySucceedsAt closed dialOk m = false) →
        Ws.retryLoopRun closed dialOk start fuel = none)
    ∧ (∀ m, closed m = true → Ws.retrySucceedsAt closed dialOk m = false) := by
  refine ⟨rfl, rfl, rfl, ?_, ?_, ?_, ?_⟩
  · intro act h
    exact Ws.retryTrace_actions closed dialOk fuel start act h
  · intro h
    exact Ws.retryLoopRun_some_spec closed dialOk fuel start n h
  · intro h
    exact Ws.retryLoopRun_none_of_never closed dialOk h fuel start
  · intro m hm
    exact Ws.retrySucceedsAt_false_of_closed closed dialOk m hm

/-- C8 witness: with the connection never closed and a dial that succeeds at
attempt 2, the bounded run stops at attempt 2 and that attempt succeeds. -/
theorem wsRetry_fixed_interval_until_success_witness :
    Ws.retrySucceedsAt wsDemoClosed wsDemoDial 2 = true :=
  ((wsRetry_fixed_interval_until_success wsDemoClosed wsDemoDial 0 10 2).2.2.2.2.1
    (by decide)).1

/-- C9: for a non empty id list whose send succeeds, Subscribe sends the
subscribe request for channel swap.update and returns successfully exactly
when the acknowledgement arrives before the 5 second timeout; for an empty
list it returns successfully without sending anything. -/
theorem subscribeAck_within_timeout (swapIds : List String) (sendOk ack : Bool) :
    (swapIds ≠ [] → sendOk = true →
      (Ws.subscribeWs sendOk ack swapIds).sent =
          some ⟨"subscribe", "swap.update", swapIds⟩ ∧
        ((Ws.subscribeWs sendOk ack swapIds).result = Except.ok () ↔ ack = true))
    ∧ (swapIds = [] →
        (Ws.subscribeWs sendOk ack swapIds).sent = none ∧
          (Ws.subscribeWs sendOk ack swapIds).result = Except.ok ())
    ∧ Ws.subscribeAckTimeoutSeconds = 5 := by
  refine ⟨?_, ?_, rfl⟩
  · intro hne hsend
    have hlen : ¬ swapIds.length = 0 := by
      simpa using hne
    subst hsend
    unfold Ws.subscribeWs
    rw [if_neg hlen]
    cases ack <;> simp
  · intro he
    subst he
    exact ⟨rfl, rfl⟩

/-- C9 witness: a singleton subscription with a timely acknowledgement sends
the request; an empty subscription returns ok. -/
theorem subscribeAck_within_timeout_witness :
    (Ws.subscribeWs true true ["swap1"]).sent =
        some ⟨"subscribe", "swap.update", ["swap1"]⟩ ∧
      (Ws.subscribeWs true false []).result = Except.ok () := by
  have h1 := (subscribeAck_within_timeout ["swap1"] true true).1 (by decide) rfl
  have h2 := (subscribeAck_within_timeout [] true false).2.1 rfl
  exact ⟨h1.1, h2.2⟩

/-- C10: while the daemon is locked every request whose full method name does
not contain Unlock is rejected by both interceptors with the locked error and
the handler never runs; a successful unlock returns the cleared flag; with
the flag cleared both interceptors invoke the handler. -/
theorem locked_requests_rejected (fullMethod : String)
    (handler : Unit → Except String String) (env : Router.UnlockEnv) :
    (strContains fullMethod "Unlock" = false →
      Router.unaryInterceptor true fullMethod handler =
          ⟨false, Except.error Router.errLockedMessage⟩ ∧
        Router.streamInterceptor true fullMethod handler =
          ⟨false, Except.error Router.errLockedMessage⟩)
    ∧ (∀ cleared, Router.unlock env true = Except.ok cleared → cleared = false)
    ∧ (Router.unaryInterceptor false fullMethod handler = ⟨true, handler ()⟩ ∧
        Router.streamInterceptor false fullMethod handler = ⟨true, handler ()⟩) := by
  refine ⟨?_, ?_, ?_, ?_⟩
  · intro h
    have hra : Router.requestAllowed true fullMethod = some Router.errLockedMessage := by
      unfold Router.requestAllowed
      rw [h]
      rfl
    constructor
    · unfold Router.unaryInterceptor
      rw [hra]
    · unfold Router.streamInterceptor
      rw [hra]
  · intro cleared hc
    unfold Router.unlock at hc
    repeat' (first | split at hc | dsimp only at hc)
    all_goals simp_all
  · unfold Router.unaryInterceptor Router.requestAllowed
    simp
  · unfold Router.streamInterceptor Router.requestAllowed
    simp

/-- C10 witness: a locked daemon rejects GetInfo on both interceptors without
invoking the handler. -/
theorem locked_requests_rejected_witness :
    Router.unaryInterceptor true "/boltzrpc.Boltz/GetInfo" demoHandler =
        ⟨false, Except.error Router.errLockedMessage⟩ ∧
      Router.streamInterceptor true "/boltzrpc.Boltz/GetInfo" demoHandler =
        ⟨false, Except.error Router.errLockedMessage⟩ :=
  (locked_requests_rejected "/boltzrpc.Boltz/GetInfo" demoHandler demoUnlockEnv).1
    (by decide)
